import Mathlib

/-!
Shallow embedding of the cdrs-future client session layer
(src/client.rs and src/transport.rs).

The frame codec, the authenticator capability and the transport are
external collaborators of the code under verification.  They are
embedded as follows:

* The transport (trait CDRSTransport) is modelled by a fixed script
  (`TransportScript`) saying what each successive write / frame parse /
  close call returns, together with an evolving `TState` recording how
  many calls of each kind happened, which requests were successfully
  written, and which compressor each parse was asked to use.
* The frame codec's encoders (`Frame::new_req_*` plus `into_cbytes`) are
  modelled by the `Request` inductive: a written frame is recorded as the
  request descriptor it encodes, since the client code never inspects
  the produced bytes.
* `parse_frame` consumes one scripted outcome: either a parse error or a
  `Frame` carrying an opcode and the result of decoding its body.
* Rust panics (`expect`, `unimplemented!`) are a distinct `Outcome`
  constructor, separate from `error::Error` results.
-/

namespace CdrsFuture

/-- cdrs `Compression`: the frame-body compression codec (external enum). -/
inductive Compression
  | none
  | lz4
  | snappy
deriving Repr, DecidableEq

/-- External `Compression::as_str` naming used in the STARTUP body. -/
def Compression.as_str : Compression → String
  | Compression.none => ""
  | Compression.lz4 => "lz4"
  | Compression.snappy => "snappy"

/-- cdrs frame `Opcode` table (external). -/
inductive Opcode
  | error
  | startup
  | ready
  | authenticate
  | options
  | supported
  | query
  | result
  | prepare
  | execute
  | register
  | event
  | batch
  | auth_challenge
  | auth_response
  | auth_success
deriving Repr, DecidableEq

/-- cdrs frame `Flag` variants (external). -/
inductive Flag
  | compression
  | tracing
  | custom_payload
  | warning
  | ignore
deriving Repr, DecidableEq

/-- cdrs `error::Error`, restricted to the constructors the client code
builds: `Error::General(String)` and `Error::Io(io::Error)` (the io error
kept as its message). -/
inductive CError
  | general (msg : String)
  | io (msg : String)
deriving Repr, DecidableEq

/-- Decoded response body (`ResponseBody`), restricted to the variants the
client code inspects: an AUTHENTICATE body carrying the server's
authenticator class name, a SUPPORTED body carrying the option map, and
everything else collapsed to `other`. -/
inductive ResponseBody
  | authenticate (name : String)
  | supported (data : List (String × List String))
  | other
deriving Repr, DecidableEq

/-- External `ResponseBody::get_authenticator`: the server's advertised
authenticator class name, present exactly when the body decoded as an
AUTHENTICATE body. -/
def ResponseBody.get_authenticator : ResponseBody → Option String
  | ResponseBody.authenticate name => some name
  | _ => Option.none

deriving instance DecidableEq for Except

/-- A parsed frame: the opcode from the header, and the outcome of
decoding the body (`Frame::get_body` can fail). -/
structure Frame where
  opcode : Opcode
  body : Except CError ResponseBody
deriving Repr, DecidableEq

/-- External `Frame::get_body`. -/
def Frame.get_body (f : Frame) : Except CError ResponseBody := f.body

/-- Rust `CassandraOptions = HashMap<String, Vec<String>>`, modelled as an
association list. -/
abbrev CassandraOptions := List (String × List String)

/-- External cdrs `QueryParams`, passed through uninterpreted by the
client code; modelled as an opaque token. -/
structure QueryParams where
  raw : Nat
deriving Repr, DecidableEq

/-- External cdrs `QueryBatch`, passed through uninterpreted; opaque. -/
structure QueryBatch where
  raw : Nat
deriving Repr, DecidableEq

/-- External cdrs `CBytesShort` (a prepared-statement id): raw bytes. -/
abbrev CBytesShort := List Nat

/-- cdrs `Query` value object, with the fields `Session::query` reads. -/
structure Query where
  query : String
  consistency : Nat
  values : Option (List Nat)
  with_names : Option Bool
  page_size : Option Int
  paging_state : Option (List Nat)
  serial_consistency : Option Nat
  timestamp : Option Int
deriving Repr, DecidableEq

/-- A request frame written to the transport, recorded as the descriptor
handed to the external `Frame::new_req_*` encoder. -/
inductive Request
  | options
  | startup (compression : String)
  | auth_response (token : List Nat)
  | prepare (query : String) (flags : List Flag)
  | execute (id : CBytesShort) (params : QueryParams) (flags : List Flag)
  | query (text : String) (consistency : Nat) (values : Option (List Nat))
      (with_names : Option Bool) (page_size : Option Int)
      (paging_state : Option (List Nat)) (serial_consistency : Option Nat)
      (timestamp : Option Int) (flags : List Flag)
  | batch (b : QueryBatch) (flags : List Flag)
deriving Repr, DecidableEq

/-- The flag list carried by a request frame (empty for the request kinds
that take no flags). -/
def Request.flagList : Request → List Flag
  | Request.prepare _ fs => fs
  | Request.execute _ _ fs => fs
  | Request.query _ _ _ _ _ _ _ _ fs => fs
  | Request.batch _ fs => fs
  | _ => []

/-- Script for the external transport and codec: what the n-th write, the
n-th `parse_frame` and the n-th close return. -/
structure TransportScript where
  writeOutcome : Nat → Except String Unit
  parseOutcome : Nat → Except CError Frame
  closeOutcome : Nat → Except String Unit

/-- Observable transport state: counts of calls, the log of successfully
written requests, the compressor used by each parse, and close calls. -/
structure TState where
  writeCalls : Nat
  written : List Request
  readCalls : Nat
  parsedWith : List Compression
  closeCalls : Nat
deriving Repr, DecidableEq

/-- A fresh transport: nothing written, read or closed yet. -/
def ts0 : TState :=
  { writeCalls := 0, written := [], readCalls := 0, parsedWith := [], closeCalls := 0 }

/-- Rust `transport.write(frame.into_cbytes().as_slice())`: the n-th write
succeeds or fails per the script; an io failure is converted by
`map_err(Into::into)` into `error::Error::Io`. -/
def twrite (sc : TransportScript) (r : Request) (ts : TState) :
    TState × Except CError Unit :=
  match sc.writeOutcome ts.writeCalls with
  | Except.ok _ =>
      ({ ts with writeCalls := ts.writeCalls + 1, written := ts.written ++ [r] },
       Except.ok ())
  | Except.error m =>
      ({ ts with writeCalls := ts.writeCalls + 1 }, Except.error (CError.io m))

/-- External `parse_frame(&mut transport, &compressor)`: consumes exactly
one scripted response, recording the compressor it was asked to use. -/
def parse_frame (sc : TransportScript) (ts : TState) (compressor : Compression) :
    TState × Except CError Frame :=
  ({ ts with readCalls := ts.readCalls + 1, parsedWith := ts.parsedWith ++ [compressor] },
   sc.parseOutcome ts.readCalls)

/-- Rust `transport.close(net::Shutdown::Both)`. -/
def tclose (sc : TransportScript) (ts : TState) : TState × Except String Unit :=
  ({ ts with closeCalls := ts.closeCalls + 1 }, sc.closeOutcome ts.closeCalls)

/-- The caller-supplied `Authenticator` capability: `get_cassandra_name`
reports the scheme name (or nothing), `get_auth_token` the token bytes. -/
structure Authenticator where
  cassandraName : Option String
  authToken : List Nat
deriving Repr, DecidableEq

/-- External trait method `Authenticator::get_cassandra_name`. -/
def Authenticator.get_cassandra_name (a : Authenticator) : Option String :=
  a.cassandraName

/-- External trait method `Authenticator::get_auth_token` (its
`into_cbytes` bytes). -/
def Authenticator.get_auth_token (a : Authenticator) : List Nat :=
  a.authToken

/-- The `CDRS` connection struct: compressor, authenticator.  Its
transport is the scripted `TState` threaded separately. -/
structure CDRS where
  compressor : Compression
  authenticator : Authenticator
deriving Repr, DecidableEq

/-- Rust `CDRS::new(transport, authenticator)`: compressor starts as
`Compression::None`. -/
def CDRS.new (authenticator : Authenticator) : CDRS :=
  { compressor := Compression.none, authenticator := authenticator }

/-- Outcome of an operation that can also panic (`expect`,
`unimplemented!`), distinct from returning an `error::Error`. -/
inductive Outcome (α : Type)
  | ok (value : α)
  | err (e : CError)
  | panicked (msg : String)
deriving Repr, DecidableEq

/-- Rust `resolve_supported_ops` (client.rs:301): accept exactly a frame whose
body decodes as a SUPPORTED body, otherwise the literal error string,
which `Into` turns into `Error::General`. -/
def resolve_supported_ops (frame : Frame) : Except CError CassandraOptions :=
  match Frame.get_body frame with
  | Except.ok (ResponseBody.supported supported_body) => Except.ok supported_body
  | _ => Except.error (CError.general "Unexpected type of frame. Supported frame is supported")

/-- Rust `CDRS::get_options` (client.rs:41): write one OPTIONS frame, parse one
response with the connection's compressor, resolve the supported-options
body.  Returns the (unchanged) connection, the transport state and the
result. -/
def CDRS.get_options (sc : TransportScript) (c : CDRS) (ts : TState) :
    CDRS × TState × Except CError CassandraOptions :=
  match twrite sc Request.options ts with
  | (ts1, Except.error e) => (c, ts1, Except.error e)
  | (ts1, Except.ok _) =>
    match parse_frame sc ts1 c.compressor with
    | (ts2, Except.error e) => (c, ts2, Except.error e)
    | (ts2, Except.ok f) => (c, ts2, resolve_supported_ops f)

/-- The panic message of the `expect` at client.rs:75 (missing auth schema
in the AUTHENTICATE body). -/
def expect_msg : String :=
  "Cassandra Server did communicate that it needed password authentication but the  auth schema was missing in the body response"

/-- The io::Error message built at client.rs:90: the `format!` call passes
the server-advertised scheme for both placeholders, so the text names the
server's scheme twice. -/
def mismatch_msg (authenticator : String) : String :=
  "Unsupported type of authenticator. " ++ authenticator ++ " got, but "
    ++ authenticator ++ " is supported."

/-- A started `Session` wrapping a `CDRS` connection. -/
structure Session where
  started : Bool
  cdrs : CDRS
  compressor : Compression
deriving Repr, DecidableEq

/-- Rust `Session::start` (client.rs:134): started, echoing the connection's
compressor. -/
def Session.start (cdrs : CDRS) : Session :=
  { started := true, cdrs := cdrs, compressor := cdrs.compressor }

/-- Rust `CDRS::start` (client.rs:55): set the compressor, write STARTUP, parse
one response and run the handshake state machine.  Mirrors the source
faithfully, including:

* the `expect` panic when the AUTHENTICATE body carries no authenticator
  class name (client.rs:74-76);
* `auth_check` of type `Result<Result<(), Error>, Error>` whose inner
  (scheme-mismatch) error is not caught by `if let Err(err) = auth_check`
  (client.rs:85-103);
* `unimplemented!()` on any opcode other than READY / AUTHENTICATE
  (client.rs:115). -/
def CDRS.start (sc : TransportScript) (c : CDRS) (compressor : Compression)
    (ts : TState) : TState × Outcome Session :=
  let c1 : CDRS := { c with compressor := compressor }
  match twrite sc (Request.startup (Compression.as_str compressor)) ts with
  | (ts1, Except.error e) => (ts1, Outcome.err e)
  | (ts1, Except.ok _) =>
    match parse_frame sc ts1 compressor with
    | (ts2, Except.error e) => (ts2, Outcome.err e)
    | (ts2, Except.ok start_response) =>
      if start_response.opcode = Opcode.ready then
        (ts2, Outcome.ok (Session.start c1))
      else if start_response.opcode = Opcode.authenticate then
        match Frame.get_body start_response with
        | Except.error e => (ts2, Outcome.err e)
        | Except.ok body =>
          match ResponseBody.get_authenticator body with
          | Option.none => (ts2, Outcome.panicked expect_msg)
          | some authenticator =>
            let auth_check : Except CError (Except CError Unit) :=
              match Authenticator.get_cassandra_name c1.authenticator with
              | Option.none =>
                  Except.error (CError.general "No authenticator was provided")
              | some auth =>
                  Except.ok
                    (if authenticator ≠ auth then
                      Except.error (CError.io (mismatch_msg authenticator))
                    else Except.ok ())
            match auth_check with
            | Except.error err => (ts2, Outcome.err err)
            | Except.ok _ =>
              let auth_token_bytes := Authenticator.get_auth_token c1.authenticator
              match twrite sc (Request.auth_response auth_token_bytes) ts2 with
              | (ts3, Except.error e) => (ts3, Outcome.err e)
              | (ts3, Except.ok _) =>
                match parse_frame sc ts3 compressor with
                | (ts4, Except.error e) => (ts4, Outcome.err e)
                | (ts4, Except.ok _) => (ts4, Outcome.ok (Session.start c1))
      else
        (ts2, Outcome.panicked "not implemented")

/-- Rust `CDRS::drop_connection` (client.rs:119): close both directions and
wrap a failure in `Error::Io`. -/
def CDRS.drop_connection (sc : TransportScript) (ts : TState) :
    TState × Except CError Unit :=
  match tclose sc ts with
  | (ts1, Except.ok u) => (ts1, Except.ok u)
  | (ts1, Except.error m) => (ts1, Except.error (CError.io m))

/-- Rust `Session::compressor` (client.rs:144): override the session's
compressor for subsequent requests. -/
def Session.set_compressor (s : Session) (compressor : Compression) : Session :=
  { s with compressor := compressor }

/-- Rust `Session::end` (client.rs:151): if started, mark stopped and drop the
connection; a close failure is only printed, never returned and never
reverses the stopped state.  A second call is a no-op. -/
def Session.end_ (sc : TransportScript) (s : Session) (ts : TState) :
    Session × TState :=
  if s.started then
    let s1 : Session := { s with started := false }
    match CDRS.drop_connection sc ts with
    | (ts1, _) => (s1, ts1)
  else (s, ts)

/-- Rust `Session::prepare` (client.rs:164): build the flag list from the two
booleans, write one PREPARE frame, parse one response with the session's
compressor. -/
def Session.prepare (sc : TransportScript) (s : Session) (query : String)
    (with_tracing : Bool) (with_warnings : Bool) (ts : TState) :
    TState × Except CError Frame :=
  let flags : List Flag := []
  let flags := if with_tracing then flags ++ [Flag.tracing] else flags
  let flags := if with_warnings then flags ++ [Flag.warning] else flags
  match twrite sc (Request.prepare query flags) ts with
  | (ts1, Except.error e) => (ts1, Except.error e)
  | (ts1, Except.ok _) => parse_frame sc ts1 s.compressor

/-- Rust `Session::execute` (client.rs:190): same shape for EXECUTE. -/
def Session.execute (sc : TransportScript) (s : Session) (id : CBytesShort)
    (query_parameters : QueryParams) (with_tracing : Bool) (with_warnings : Bool)
    (ts : TState) : TState × Except CError Frame :=
  let flags : List Flag := []
  let flags := if with_tracing then flags ++ [Flag.tracing] else flags
  let flags := if with_warnings then flags ++ [Flag.warning] else flags
  match twrite sc (Request.execute id query_parameters flags) ts with
  | (ts1, Except.error e) => (ts1, Except.error e)
  | (ts1, Except.ok _) => parse_frame sc ts1 s.compressor

/-- Rust `Session::query` (client.rs:223): same shape for QUERY, passing the
query value object's fields to the encoder. -/
def Session.query (sc : TransportScript) (s : Session) (query : Query)
    (with_tracing : Bool) (with_warnings : Bool) (ts : TState) :
    TState × Except CError Frame :=
  let flags : List Flag := []
  let flags := if with_tracing then flags ++ [Flag.tracing] else flags
  let flags := if with_warnings then flags ++ [Flag.warning] else flags
  match twrite sc
      (Request.query query.query query.consistency query.values query.with_names
        query.page_size query.paging_state query.serial_consistency
        query.timestamp flags) ts with
  | (ts1, Except.error e) => (ts1, Except.error e)
  | (ts1, Except.ok _) => parse_frame sc ts1 s.compressor

/-- Rust `Session::batch` (client.rs:257): same shape for BATCH. -/
def Session.batch (sc : TransportScript) (s : Session) (batch_query : QueryBatch)
    (with_tracing : Bool) (with_warnings : Bool) (ts : TState) :
    TState × Except CError Frame :=
  let flags : List Flag := []
  let flags := if with_tracing then flags ++ [Flag.tracing] else flags
  let flags := if with_warnings then flags ++ [Flag.warning] else flags
  match twrite sc (Request.batch batch_query flags) ts with
  | (ts1, Except.error e) => (ts1, Except.error e)
  | (ts1, Except.ok _) => parse_frame sc ts1 s.compressor

/-- Rust `net::Shutdown`. -/
inductive Shutdown
  | read
  | write
  | both
deriving Repr, DecidableEq

/-- The tokio `TcpStream` wrapped by `TransportTcp`, opaque here. -/
structure TcpStream where
  fd : Nat
deriving Repr, DecidableEq

/-- Rust `TransportTcp` (transport.rs:9). -/
structure TransportTcp where
  stream : TcpStream
deriving Repr, DecidableEq

/-- Rust `TransportTcp::try_clone` (transport.rs:38): unconditionally the io
error "not implemented". -/
def TransportTcp.try_clone (_t : TransportTcp) : Except String TransportTcp :=
  Except.error "not implemented"

/-- Rust `TransportTcp::close` (transport.rs:44): unconditionally the io error
"not implemented". -/
def TransportTcp.close (_t : TransportTcp) (_close : Shutdown) : Except String Unit :=
  Except.error "not implemented"

/-- Rust `TransportTcp::set_timeout` (transport.rs:49): unconditionally the io
error "not implemented". -/
def TransportTcp.set_timeout (_t : TransportTcp) (_dur : Option Nat) :
    Except String Unit :=
  Except.error "not implemented"

/-- Rust `CDRS::drop_connection` specialised at `X = TransportTcp`: the same
close-and-wrap code run against the concrete transport. -/
def drop_connection_tcp (t : TransportTcp) : Except CError Unit :=
  match TransportTcp.close t Shutdown.both with
  | Except.ok u => Except.ok u
  | Except.error m => Except.error (CError.io m)

/-- Rust `Session::end` specialised at `X = TransportTcp`; the second component
surfaces the close error that the source only prints. -/
def Session.end_tcp (s : Session) (t : TransportTcp) : Session × Option CError :=
  if s.started then
    match drop_connection_tcp t with
    | Except.ok _ => ({ s with started := false }, Option.none)
    | Except.error err => ({ s with started := false }, some err)
  else (s, Option.none)

/-- Discriminator: the outcome is a returned error result (as opposed to a
normal return or a panic). -/
def Outcome.isErr {α : Type} : Outcome α → Bool
  | Outcome.err _ => true
  | _ => false

/-- Concrete client authenticator reporting scheme "X" with token bytes
[7]. -/
def authX : Authenticator := { cassandraName := some "X", authToken := [7] }

/-- Concrete client authenticator reporting scheme "Y" with token bytes
[9]. -/
def authY : Authenticator := { cassandraName := some "Y", authToken := [9] }

/-- Concrete READY response frame. -/
def readyFrame : Frame := { opcode := Opcode.ready, body := Except.ok ResponseBody.other }

/-- Concrete AUTHENTICATE response advertising scheme "X". -/
def authFrameX : Frame :=
  { opcode := Opcode.authenticate, body := Except.ok (ResponseBody.authenticate "X") }

/-- Concrete AUTHENTICATE response whose body decodes without an
authenticator class name. -/
def authFrameNoName : Frame :=
  { opcode := Opcode.authenticate, body := Except.ok ResponseBody.other }

/-- Concrete RESULT response frame. -/
def resultFrame : Frame := { opcode := Opcode.result, body := Except.ok ResponseBody.other }

/-- Concrete ERROR response frame. -/
def errFrame : Frame := { opcode := Opcode.error, body := Except.ok ResponseBody.other }

/-- Concrete supported-options data. -/
def optsData : CassandraOptions := [("CQL_VERSION", ["3.0.0"])]

/-- Concrete SUPPORTED response frame. -/
def supportedFrame : Frame :=
  { opcode := Opcode.supported, body := Except.ok (ResponseBody.supported optsData) }

/-- Concrete frame whose opcode is neither READY nor AUTHENTICATE. -/
def badOpcodeFrame : Frame :=
  { opcode := Opcode.supported, body := Except.ok ResponseBody.other }

/-- Script: every write succeeds, every parse yields a RESULT frame. -/
def okSc : TransportScript :=
  { writeOutcome := fun _ => Except.ok ()
    parseOutcome := fun _ => Except.ok resultFrame
    closeOutcome := fun _ => Except.ok () }

/-- Script: replies READY to the first written frame. -/
def scReady : TransportScript :=
  { writeOutcome := fun _ => Except.ok ()
    parseOutcome := fun n => match n with
      | 0 => Except.ok readyFrame
      | _ => Except.ok resultFrame
    closeOutcome := fun _ => Except.ok () }

/-- Script: replies AUTHENTICATE "X" to STARTUP and then an ERROR frame
to whatever is written next. -/
def scAuthThenError : TransportScript :=
  { writeOutcome := fun _ => Except.ok ()
    parseOutcome := fun n => match n with
      | 0 => Except.ok authFrameX
      | _ => Except.ok errFrame
    closeOutcome := fun _ => Except.ok () }

/-- Script: replies AUTHENTICATE with a body lacking the class name. -/
def scMissingName : TransportScript :=
  { writeOutcome := fun _ => Except.ok ()
    parseOutcome := fun n => match n with
      | 0 => Except.ok authFrameNoName
      | _ => Except.ok resultFrame
    closeOutcome := fun _ => Except.ok () }

/-- Script: replies SUPPORTED to the first written frame. -/
def scSupported : TransportScript :=
  { writeOutcome := fun _ => Except.ok ()
    parseOutcome := fun n => match n with
      | 0 => Except.ok supportedFrame
      | _ => Except.ok resultFrame
    closeOutcome := fun _ => Except.ok () }

/-- Script: replies with a frame that is neither READY nor AUTHENTICATE. -/
def scBadOpcode : TransportScript :=
  { writeOutcome := fun _ => Except.ok ()
    parseOutcome := fun n => match n with
      | 0 => Except.ok badOpcodeFrame
      | _ => Except.ok resultFrame
    closeOutcome := fun _ => Except.ok () }

/-- Script whose close calls always fail. -/
def scCloseFail : TransportScript :=
  { writeOutcome := fun _ => Except.ok ()
    parseOutcome := fun _ => Except.ok resultFrame
    closeOutcome := fun _ => Except.error "close failed" }

/-- A started session over a fresh connection authenticating as "X". -/
def csession : Session := Session.start (CDRS.new authX)

/-- Concrete prepared-statement id. -/
def id0 : CBytesShort := [1, 2]

/-- Concrete query parameters token. -/
def qp0 : QueryParams := { raw := 0 }

/-- Concrete batch token. -/
def qb0 : QueryBatch := { raw := 0 }

/-- Concrete query value object. -/
def q0 : Query :=
  { query := "select", consistency := 1, values := Option.none
    with_names := Option.none, page_size := Option.none
    paging_state := Option.none, serial_consistency := Option.none
    timestamp := Option.none }

/-- Concrete TCP transport value. -/
def tcp0 : TransportTcp := { stream := { fd := 0 } }

/-- C1: the claim fails on the code.  With the server advertising scheme
"X" (AUTHENTICATE reply to STARTUP) and the caller's authenticator
reporting scheme "Y", start() does not fail: the mismatch error built at
client.rs:90-96 sits inside the Ok branch of the nested
Result-inside-Result auth_check, the test at client.rs:101 only catches
the outer Err, so the error is dropped, the AUTH_RESPONSE frame is
written and a started session is returned — contradicting the code's own
comment (client.rs:79-83) that a mismatch must "send error back". -/
theorem c1_scheme_mismatch_bug :
    (CDRS.start scAuthThenError (CDRS.new authY) Compression.none ts0).2
        = Outcome.ok (Session.start { compressor := Compression.none, authenticator := authY })
      ∧ (CDRS.start scAuthThenError (CDRS.new authY) Compression.none ts0).1.written
        = [Request.startup "", Request.auth_response [9]] := by
  decide

/-- C2 counterexample: when the AUTHENTICATE body carries no authenticator
class name, start() hits the expect at client.rs:75 and panics; the
outcome is a panic, not an error result returned to the caller, so the
claim's "reported as a ConfigurationError result" is false as stated. -/
theorem c2_counterexample_panic_not_error :
    (CDRS.start scMissingName (CDRS.new authY) Compression.none ts0).2
        = Outcome.panicked expect_msg
      ∧ Outcome.isErr (CDRS.start scMissingName (CDRS.new authY) Compression.none ts0).2
        = false := by
  decide

/-- C2 (amended): for every AUTHENTICATE response to STARTUP whose body
lacks the server's advertised authenticator class name, start() aborts
with a panic carrying the missing-auth-schema message — a fatal
condition, not silent continuation — rather than returning a
ConfigurationError result. -/
theorem c2_missing_auth_name_panics
    (sc : TransportScript) (c : CDRS) (comp : Compression) (f : Frame) (b : ResponseBody)
    (hw : sc.writeOutcome 0 = Except.ok ())
    (hp : sc.parseOutcome 0 = Except.ok f)
    (hop : f.opcode = Opcode.authenticate)
    (hb : f.body = Except.ok b)
    (hn : b.get_authenticator = Option.none) :
    (CDRS.start sc c comp ts0).2 = Outcome.panicked expect_msg := by
  simp [CDRS.start, twrite, parse_frame, ts0, hw, hp, hop, Frame.get_body, hb, hn]

/-- Witness for c2_missing_auth_name_panics at the concrete script. -/
theorem c2_missing_auth_name_panics_witness :
    scMissingName.parseOutcome 0 = Except.ok authFrameNoName
      ∧ (CDRS.start scMissingName (CDRS.new authY) Compression.none ts0).2
        = Outcome.panicked expect_msg :=
  ⟨rfl,
   c2_missing_auth_name_panics scMissingName (CDRS.new authY) Compression.none
     authFrameNoName ResponseBody.other rfl rfl rfl rfl rfl⟩

/-- C3: whenever the single response to the STARTUP frame has opcode
READY, start() succeeds with a started session wrapping the connection,
after exactly one write (the STARTUP frame) and one read, and no
AUTH_RESPONSE frame is ever written. -/
theorem c3_ready_starts_session
    (sc : TransportScript) (a : Authenticator) (comp : Compression) (f : Frame)
    (hw : sc.writeOutcome 0 = Except.ok ())
    (hp : sc.parseOutcome 0 = Except.ok f)
    (hop : f.opcode = Opcode.ready) :
    CDRS.start sc (CDRS.new a) comp ts0
        = ({ writeCalls := 1, written := [Request.startup (Compression.as_str comp)],
             readCalls := 1, parsedWith := [comp], closeCalls := 0 },
           Outcome.ok (Session.start { compressor := comp, authenticator := a }))
      ∧ (Session.start { compressor := comp, authenticator := a }).started = true
      ∧ ∀ tok, Request.auth_response tok
          ∉ (CDRS.start sc (CDRS.new a) comp ts0).1.written := by
  have h1 : CDRS.start sc (CDRS.new a) comp ts0
      = ({ writeCalls := 1, written := [Request.startup (Compression.as_str comp)],
           readCalls := 1, parsedWith := [comp], closeCalls := 0 },
         Outcome.ok (Session.start { compressor := comp, authenticator := a })) := by
    simp [CDRS.start, twrite, parse_frame, ts0, CDRS.new, hw, hp, hop]
  refine ⟨h1, rfl, ?_⟩
  intro tok
  rw [h1]
  simp

/-- Witness for c3_ready_starts_session at the concrete READY script. -/
theorem c3_ready_starts_session_witness :
    scReady.writeOutcome 0 = Except.ok ()
      ∧ (CDRS.start scReady (CDRS.new authX) Compression.lz4 ts0).2
        = Outcome.ok (Session.start { compressor := Compression.lz4, authenticator := authX }) := by
  refine ⟨rfl, ?_⟩
  have h := c3_ready_starts_session scReady authX Compression.lz4 readyFrame rfl rfl rfl
  rw [h.1]

/-- C4: for all four boolean combinations of with_tracing / with_warnings,
each of prepare, execute, query and batch writes a request whose flag
list is exactly the flags whose boolean is true — empty set, Tracing
alone, Warning alone, or Tracing followed by Warning — with no other
flags injected. -/
theorem c4_flags_exact :
    ((Session.prepare okSc csession "q" false false ts0).1.written.map Request.flagList = [[]]
      ∧ (Session.prepare okSc csession "q" true false ts0).1.written.map Request.flagList
        = [[Flag.tracing]]
      ∧ (Session.prepare okSc csession "q" false true ts0).1.written.map Request.flagList
        = [[Flag.warning]]
      ∧ (Session.prepare okSc csession "q" true true ts0).1.written.map Request.flagList
        = [[Flag.tracing, Flag.warning]])
    ∧ ((Session.execute okSc csession id0 qp0 false false ts0).1.written.map Request.flagList
        = [[]]
      ∧ (Session.execute okSc csession id0 qp0 true false ts0).1.written.map Request.flagList
        = [[Flag.tracing]]
      ∧ (Session.execute okSc csession id0 qp0 false true ts0).1.written.map Request.flagList
        = [[Flag.warning]]
      ∧ (Session.execute okSc csession id0 qp0 true true ts0).1.written.map Request.flagList
        = [[Flag.tracing, Flag.warning]])
    ∧ ((Session.query okSc csession q0 false false ts0).1.written.map Request.flagList = [[]]
      ∧ (Session.query okSc csession q0 true false ts0).1.written.map Request.flagList
        = [[Flag.tracing]]
      ∧ (Session.query okSc csession q0 false true ts0).1.written.map Request.flagList
        = [[Flag.warning]]
      ∧ (Session.query okSc csession q0 true true ts0).1.written.map Request.flagList
        = [[Flag.tracing, Flag.warning]])
    ∧ ((Session.batch okSc csession qb0 false false ts0).1.written.map Request.flagList = [[]]
      ∧ (Session.batch okSc csession qb0 true false ts0).1.written.map Request.flagList
        = [[Flag.tracing]]
      ∧ (Session.batch okSc csession qb0 false true ts0).1.written.map Request.flagList
        = [[Flag.warning]]
      ∧ (Session.batch okSc csession qb0 true true ts0).1.written.map Request.flagList
        = [[Flag.tracing, Flag.warning]]) := by
  decide

/-- C5: for every started session, end() is idempotent: the first call
sets started to false and closes the transport exactly once, and the
second call is a no-op that changes nothing — regardless of the close
outcome, which the universally quantified script covers (a close failure
does not reverse the stopped state). -/
theorem c5_end_idempotent
    (sc : TransportScript) (s : Session) (ts : TState) (hs : s.started = true) :
    (Session.end_ sc s ts).1.started = false
      ∧ (Session.end_ sc s ts).2.closeCalls = ts.closeCalls + 1
      ∧ Session.end_ sc (Session.end_ sc s ts).1 (Session.end_ sc s ts).2
        = Session.end_ sc s ts := by
  have h1 : Session.end_ sc s ts
      = ({ s with started := false }, { ts with closeCalls := ts.closeCalls + 1 }) := by
    rcases hco : sc.closeOutcome ts.closeCalls with m | u <;>
      simp [Session.end_, CDRS.drop_connection, tclose, hs, hco]
  rw [h1]
  refine ⟨rfl, rfl, ?_⟩
  simp [Session.end_]

/-- Witness for c5_end_idempotent, on a transport whose close fails. -/
theorem c5_end_idempotent_witness :
    csession.started = true
      ∧ (Session.end_ scCloseFail csession ts0).1.started = false
      ∧ (Session.end_ scCloseFail csession ts0).2.closeCalls = 1
      ∧ Session.end_ scCloseFail (Session.end_ scCloseFail csession ts0).1
          (Session.end_ scCloseFail csession ts0).2
        = Session.end_ scCloseFail csession ts0 := by
  have h := c5_end_idempotent scCloseFail csession ts0 rfl
  exact ⟨rfl, h.1, h.2.1, h.2.2⟩

/-- C6: get_options sends one OPTIONS request and reads one response; it
returns the option map exactly when the response is a SUPPORTED frame
whose body decodes as supported options (the codec hypothesis states that
a supported body only arises from a SUPPORTED frame); any other response
yields the protocol-violation error, and the connection (compressor and
authenticator) is returned unchanged. -/
theorem c6_get_options_exact
    (sc : TransportScript) (c : CDRS) (f : Frame)
    (hw : sc.writeOutcome 0 = Except.ok ())
    (hp : sc.parseOutcome 0 = Except.ok f)
    (hcodec : ∀ d, f.body = Except.ok (ResponseBody.supported d) → f.opcode = Opcode.supported) :
    (CDRS.get_options sc c ts0).1 = c
      ∧ (CDRS.get_options sc c ts0).2.1.writeCalls = 1
      ∧ (CDRS.get_options sc c ts0).2.1.readCalls = 1
      ∧ (CDRS.get_options sc c ts0).2.1.written = [Request.options]
      ∧ (∀ d, (CDRS.get_options sc c ts0).2.2 = Except.ok d
          ↔ f.opcode = Opcode.supported ∧ f.body = Except.ok (ResponseBody.supported d))
      ∧ ((∀ d, f.body ≠ Except.ok (ResponseBody.supported d)) →
          (CDRS.get_options sc c ts0).2.2
            = Except.error (CError.general "Unexpected type of frame. Supported frame is supported")) := by
  have hmain : CDRS.get_options sc c ts0
      = (c, { writeCalls := 1, written := [Request.options], readCalls := 1,
              parsedWith := [c.compressor], closeCalls := 0 },
         resolve_supported_ops f) := by
    simp [CDRS.get_options, twrite, parse_frame, ts0, hw, hp]
  rw [hmain]
  refine ⟨rfl, rfl, rfl, rfl, ?_, ?_⟩
  · intro d
    rcases hb : f.body with e | rb
    · simp [resolve_supported_ops, Frame.get_body, hb]
    · rcases rb with nm | data | _
      · simp [resolve_supported_ops, Frame.get_body, hb]
      · simp [resolve_supported_ops, Frame.get_body, hb, hcodec data hb]
      · simp [resolve_supported_ops, Frame.get_body, hb]
  · intro hnot
    rcases hb : f.body with e | rb
    · simp [resolve_supported_ops, Frame.get_body, hb]
    · rcases rb with nm | data | _
      · simp [resolve_supported_ops, Frame.get_body, hb]
      · exact absurd hb (hnot data)
      · simp [resolve_supported_ops, Frame.get_body, hb]

/-- Witness for c6_get_options_exact at the concrete SUPPORTED script. -/
theorem c6_get_options_exact_witness :
    scSupported.writeOutcome 0 = Except.ok ()
      ∧ (CDRS.get_options scSupported (CDRS.new authX) ts0).2.2 = Except.ok optsData := by
  refine ⟨rfl, ?_⟩
  have h := c6_get_options_exact scSupported (CDRS.new authX) supportedFrame rfl rfl
    (fun d hd => rfl)
  exact (h.2.2.2.2.1 optsData).mpr ⟨rfl, rfl⟩

/-- C7: each of prepare, execute, query and batch performs exactly one
transport write of its encoded request followed by exactly one frame
parse using the session's current compressor, and returns the parsed
frame (whatever the script yields) to the caller uninterpreted; a write
failure is propagated as the operation's error with no read performed
and nothing appended to the write log, and a parse failure is simply the
returned parse outcome with no further reads or writes. -/
theorem c7_single_round_trip
    (sc : TransportScript) (s : Session) (ts : TState) (q : String)
    (id : CBytesShort) (qp : QueryParams) (qo : Query) (b : QueryBatch)
    (wt ww : Bool) :
    ((sc.writeOutcome ts.writeCalls = Except.ok () →
        (Session.prepare sc s q wt ww ts).1.writeCalls = ts.writeCalls + 1
      ∧ (Session.prepare sc s q wt ww ts).1.readCalls = ts.readCalls + 1
      ∧ (Session.prepare sc s q wt ww ts).1.written
          = ts.written ++ [Request.prepare q
              ((if wt then [Flag.tracing] else []) ++ (if ww then [Flag.warning] else []))]
      ∧ (Session.prepare sc s q wt ww ts).1.parsedWith = ts.parsedWith ++ [s.compressor]
      ∧ (Session.prepare sc s q wt ww ts).2 = sc.parseOutcome ts.readCalls)
    ∧ (∀ m, sc.writeOutcome ts.writeCalls = Except.error m →
        (Session.prepare sc s q wt ww ts).1 = { ts with writeCalls := ts.writeCalls + 1 }
      ∧ (Session.prepare sc s q wt ww ts).2 = Except.error (CError.io m)))
    ∧ ((sc.writeOutcome ts.writeCalls = Except.ok () →
        (Session.execute sc s id qp wt ww ts).1.writeCalls = ts.writeCalls + 1
      ∧ (Session.execute sc s id qp wt ww ts).1.readCalls = ts.readCalls + 1
      ∧ (Session.execute sc s id qp wt ww ts).1.written
          = ts.written ++ [Request.execute id qp
              ((if wt then [Flag.tracing] else []) ++ (if ww then [Flag.warning] else []))]
      ∧ (Session.execute sc s id qp wt ww ts).1.parsedWith = ts.parsedWith ++ [s.compressor]
      ∧ (Session.execute sc s id qp wt ww ts).2 = sc.parseOutcome ts.readCalls)
    ∧ (∀ m, sc.writeOutcome ts.writeCalls = Except.error m →
        (Session.execute sc s id qp wt ww ts).1 = { ts with writeCalls := ts.writeCalls + 1 }
      ∧ (Session.execute sc s id qp wt ww ts).2 = Except.error (CError.io m)))
    ∧ ((sc.writeOutcome ts.writeCalls = Except.ok () →
        (Session.query sc s qo wt ww ts).1.writeCalls = ts.writeCalls + 1
      ∧ (Session.query sc s qo wt ww ts).1.readCalls = ts.readCalls + 1
      ∧ (Session.query sc s qo wt ww ts).1.written
          = ts.written ++ [Request.query qo.query qo.consistency qo.values qo.with_names
              qo.page_size qo.paging_state qo.serial_consistency qo.timestamp
              ((if wt then [Flag.tracing] else []) ++ (if ww then [Flag.warning] else []))]
      ∧ (Session.query sc s qo wt ww ts).1.parsedWith = ts.parsedWith ++ [s.compressor]
      ∧ (Session.query sc s qo wt ww ts).2 = sc.parseOutcome ts.readCalls)
    ∧ (∀ m, sc.writeOutcome ts.writeCalls = Except.error m →
        (Session.query sc s qo wt ww ts).1 = { ts with writeCalls := ts.writeCalls + 1 }
      ∧ (Session.query sc s qo wt ww ts).2 = Except.error (CError.io m)))
    ∧ ((sc.writeOutcome ts.writeCalls = Except.ok () →
        (Session.batch sc s b wt ww ts).1.writeCalls = ts.writeCalls + 1
      ∧ (Session.batch sc s b wt ww ts).1.readCalls = ts.readCalls + 1
      ∧ (Session.batch sc s b wt ww ts).1.written
          = ts.written ++ [Request.batch b
              ((if wt then [Flag.tracing] else []) ++ (if ww then [Flag.warning] else []))]
      ∧ (Session.batch sc s b wt ww ts).1.parsedWith = ts.parsedWith ++ [s.compressor]
      ∧ (Session.batch sc s b wt ww ts).2 = sc.parseOutcome ts.readCalls)
    ∧ (∀ m, sc.writeOutcome ts.writeCalls = Except.error m →
        (Session.batch sc s b wt ww ts).1 = { ts with writeCalls := ts.writeCalls + 1 }
      ∧ (Session.batch sc s b wt ww ts).2 = Except.error (CError.io m))) := by
  refine ⟨⟨?_, ?_⟩, ⟨?_, ?_⟩, ⟨?_, ?_⟩, ⟨?_, ?_⟩⟩
  · intro hw
    cases wt <;> cases ww <;> simp [Session.prepare, twrite, parse_frame, hw]
  · intro m hm
    simp [Session.prepare, twrite, hm]
  · intro hw
    cases wt <;> cases ww <;> simp [Session.execute, twrite, parse_frame, hw]
  · intro m hm
    simp [Session.execute, twrite, hm]
  · intro hw
    cases wt <;> cases ww <;> simp [Session.query, twrite, parse_frame, hw]
  · intro m hm
    simp [Session.query, twrite, hm]
  · intro hw
    cases wt <;> cases ww <;> simp [Session.batch, twrite, parse_frame, hw]
  · intro m hm
    simp [Session.batch, twrite, hm]

/-- Witness for c7_single_round_trip at the concrete all-ok script. -/
theorem c7_single_round_trip_witness :
    okSc.writeOutcome ts0.writeCalls = Except.ok ()
      ∧ (Session.query okSc csession q0 true false ts0).1.writeCalls = 1
      ∧ (Session.query okSc csession q0 true false ts0).1.readCalls = 1
      ∧ (Session.query okSc csession q0 true false ts0).2 = Except.ok resultFrame := by
  have h := c7_single_round_trip okSc csession ts0 "q" id0 qp0 q0 qb0 true false
  have hq := h.2.2.1.1 rfl
  exact ⟨rfl, hq.1, hq.2.1, hq.2.2.2.2⟩

/-- C8: whenever the response to STARTUP is neither READY nor
AUTHENTICATE, start() aborts the handshake with the unimplemented panic
(a fatal, non-recoverable condition) and never returns a started
session. -/
theorem c8_unknown_opcode_aborts
    (sc : TransportScript) (c : CDRS) (comp : Compression) (f : Frame)
    (hw : sc.writeOutcome 0 = Except.ok ())
    (hp : sc.parseOutcome 0 = Except.ok f)
    (h1 : f.opcode ≠ Opcode.ready)
    (h2 : f.opcode ≠ Opcode.authenticate) :
    (CDRS.start sc c comp ts0).2 = Outcome.panicked "not implemented"
      ∧ ∀ sess : Session, (CDRS.start sc c comp ts0).2 ≠ Outcome.ok sess := by
  have hmain : (CDRS.start sc c comp ts0).2 = Outcome.panicked "not implemented" := by
    simp [CDRS.start, twrite, parse_frame, ts0, hw, hp, h1, h2]
  refine ⟨hmain, ?_⟩
  intro sess
  simp [hmain]

/-- Witness for c8_unknown_opcode_aborts on a SUPPORTED reply to STARTUP. -/
theorem c8_unknown_opcode_aborts_witness :
    badOpcodeFrame.opcode ≠ Opcode.ready
      ∧ badOpcodeFrame.opcode ≠ Opcode.authenticate
      ∧ (CDRS.start scBadOpcode (CDRS.new authX) Compression.none ts0).2
        = Outcome.panicked "not implemented" := by
  refine ⟨by decide, by decide, ?_⟩
  exact (c8_unknown_opcode_aborts scBadOpcode (CDRS.new authX) Compression.none badOpcodeFrame
    rfl rfl (by decide) (by decide)).1

/-- C9: in the AUTHENTICATE path (matching schemes), once the
AUTH_RESPONSE frame has been written, any reply frame that parses
successfully — whatever its opcode or body, including a server ERROR
frame — yields a started session, because the code never inspects the
reply; the only failure mode at that point is a frame-parse error, which
is propagated. -/
theorem c9_auth_reply_uninspected
    (sc : TransportScript) (c : CDRS) (comp : Compression) (f : Frame) (nm : String)
    (hw0 : sc.writeOutcome 0 = Except.ok ())
    (hp0 : sc.parseOutcome 0 = Except.ok f)
    (hop : f.opcode = Opcode.authenticate)
    (hb : f.body = Except.ok (ResponseBody.authenticate nm))
    (ha : c.authenticator.cassandraName = some nm)
    (hw1 : sc.writeOutcome 1 = Except.ok ()) :
    (∀ g : Frame, sc.parseOutcome 1 = Except.ok g →
        (CDRS.start sc c comp ts0).2
          = Outcome.ok (Session.start { compressor := comp, authenticator := c.authenticator }))
      ∧ (∀ e : CError, sc.parseOutcome 1 = Except.error e →
        (CDRS.start sc c comp ts0).2 = Outcome.err e) := by
  constructor
  · intro g hg
    simp [CDRS.start, twrite, parse_frame, ts0, hw0, hp0, hop, Frame.get_body, hb,
      ResponseBody.get_authenticator, Authenticator.get_cassandra_name, ha,
      Authenticator.get_auth_token, hw1, hg]
  · intro e he
    simp [CDRS.start, twrite, parse_frame, ts0, hw0, hp0, hop, Frame.get_body, hb,
      ResponseBody.get_authenticator, Authenticator.get_cassandra_name, ha,
      Authenticator.get_auth_token, hw1, he]

/-- Witness for c9_auth_reply_uninspected where the reply to AUTH_RESPONSE
is a server ERROR frame. -/
theorem c9_auth_reply_uninspected_witness :
    scAuthThenError.parseOutcome 1 = Except.ok errFrame
      ∧ errFrame.opcode = Opcode.error
      ∧ (CDRS.start scAuthThenError (CDRS.new authX) Compression.none ts0).2
        = Outcome.ok (Session.start { compressor := Compression.none, authenticator := authX }) := by
  refine ⟨rfl, rfl, ?_⟩
  have h := c9_auth_reply_uninspected scAuthThenError (CDRS.new authX) Compression.none
    authFrameX "X" rfl rfl rfl rfl rfl rfl
  exact h.1 errFrame rfl

/-- C10: TransportTcp's close, set_timeout and try_clone unconditionally
return the io error "not implemented" for every input; consequently
drop_connection over a TransportTcp always returns an Io-wrapped error,
and end() over a TransportTcp still marks the session stopped (surfacing
that error only as the printed message). -/
theorem c10_transport_tcp_stubs :
    (∀ (t : TransportTcp) (dir : Shutdown),
        TransportTcp.close t dir = Except.error "not implemented")
      ∧ (∀ (t : TransportTcp) (dur : Option Nat),
        TransportTcp.set_timeout t dur = Except.error "not implemented")
      ∧ (∀ t : TransportTcp, TransportTcp.try_clone t = Except.error "not implemented")
      ∧ (∀ t : TransportTcp, drop_connection_tcp t = Except.error (CError.io "not implemented"))
      ∧ (∀ (s : Session) (t : TransportTcp), s.started = true →
        Session.end_tcp s t
          = ({ s with started := false }, some (CError.io "not implemented"))) := by
  refine ⟨fun t dir => rfl, fun t dur => rfl, fun t => rfl, fun t => rfl, ?_⟩
  intro s t hs
  simp [Session.end_tcp, drop_connection_tcp, TransportTcp.close, hs]

/-- Witness for c10_transport_tcp_stubs at a concrete started session. -/
theorem c10_transport_tcp_stubs_witness :
    csession.started = true
      ∧ Session.end_tcp csession tcp0
        = ({ csession with started := false }, some (CError.io "not implemented")) :=
  ⟨rfl, c10_transport_tcp_stubs.2.2.2.2 csession tcp0 rfl⟩

end CdrsFuture
